import Mathlib

/-!
Shallow embedding of the burger-bot order-session core:
the cart (`models/session_state.py`), the mock backend client
(`services/burger_api.py`), and the tool handlers
(`functions/state_operations.py`, `functions/order_operations.py`).

Python machine values are modelled as follows: `int` as `ℤ`, `float`
prices and totals as `ℚ` (all program prices are exact cent amounts),
strings as `String`, `None`-able arguments as `Option`, the awaited
outcome of the external order-submission call as `Except`.
Each handler returns, besides its result string and the new cart, the
list of strings pushed through `params.result_callback` and (for
`create_order`) the list of requests sent to the external endpoint.
-/

set_option autoImplicit false

namespace BurgerBot

/-- `MenuItem` from `services/models.py`. -/
structure MenuItem where
  id : String
  name : String
  description : String
  price : ℚ
  category : String
  deriving Repr, DecidableEq

/-- `OrderItem` from `models/session_state.py` (one cart line). -/
structure OrderItem where
  item_id : String
  quantity : ℤ
  name : String
  price : ℚ
  deriving Repr, DecidableEq

/-- The cart: `SessionState.order_items`. -/
abbrev Cart := List OrderItem

/-- `SessionState.clear_order`: sets `order_items = []`. -/
def clear_order : Cart := []

/-- Increment the quantity of the first line matching `i` by `q`
(the effect of `existing_item.quantity += item.quantity` through
Python's first-match `next(...)`). -/
def addQtyFirst : Cart → String → ℤ → Cart
  | [], _, _ => []
  | x :: rest, i, q =>
    if x.item_id == i then { x with quantity := x.quantity + q } :: rest
    else x :: addQtyFirst rest i q

/-- Whether some line matches `item_id` (Python `next(..., None)` hit). -/
def hasId (cart : Cart) (i : String) : Bool :=
  cart.any (fun x => x.item_id == i)

/-- `SessionState.add_item`: merge into the existing line, else append. -/
def add_item (cart : Cart) (item : OrderItem) : Cart :=
  if hasId cart item.item_id then addQtyFirst cart item.item_id item.quantity
  else cart ++ [item]

/-- First line matching `item_id` (`next((item for item ...), None)`). -/
def lookupFirst (cart : Cart) (i : String) : Option OrderItem :=
  cart.find? (fun x => x.item_id == i)

/-- Delete the first line matching `i` (`self.order_items.remove(item_to_remove)`:
equality-based removal hits exactly the first id-match, since every
earlier line has a different `item_id` and hence differs from it). -/
def removeFirst : Cart → String → Cart
  | [], _ => []
  | x :: rest, i => if x.item_id == i then rest else x :: removeFirst rest i

/-- Decrement the quantity of the first line matching `i` by `q`
(`item_to_remove.quantity -= quantity`). -/
def decFirst : Cart → String → ℤ → Cart
  | [], _, _ => []
  | x :: rest, i, q =>
    if x.item_id == i then { x with quantity := x.quantity - q } :: rest
    else x :: decFirst rest i q

/-- `SessionState.remove_item`: returns the Python `bool` result with the
new cart. `quantity = none` models a `None` argument. -/
def remove_item (cart : Cart) (item_id : String) (quantity : Option ℤ) :
    Bool × Cart :=
  match lookupFirst cart item_id with
  | none => (false, cart)
  | some item =>
    match quantity with
    | none => (true, removeFirst cart item_id)
    | some q =>
      if item.quantity ≤ q then (true, removeFirst cart item_id)
      else (true, decFirst cart item_id q)

/-- `SessionState.calculate_total`: `sum(item.price * item.quantity ...)`. -/
def calculate_total (cart : Cart) : ℚ :=
  (cart.map (fun x => x.price * (x.quantity : ℚ))).sum

/-- Round a rational to the nearest integer, ties to even — the rounding
used by Python's `round` and by `format(x, ".2f")` on exact values. -/
def roundHalfEven (x : ℚ) : ℤ :=
  let n := ⌊x⌋
  if x - n < 1/2 then n
  else if 1/2 < x - n then n + 1
  else if n % 2 = 0 then n else n + 1

/-- `round(total, 2)` in `burger_api.py`. -/
def roundTo2 (q : ℚ) : ℚ :=
  (roundHalfEven (q * 100) : ℚ) / 100

/-- Render a money amount the way the f-strings `f"...$\x7btotal:.2f\x7d"` do:
two decimal places, ties to even. -/
def fmt2 (q : ℚ) : String :=
  let c := roundHalfEven (q * 100)
  let s := if c < 0 then "-" else ""
  let n := c.natAbs
  let d := n % 100
  s ++ toString (n / 100) ++ "." ++ (if d < 10 then "0" else "") ++ toString d

/-- ASCII apostrophe, as quoted around item ids in the error strings. -/
def sq : String := "\x27"

/-- `OrderItem` of `services/models.py`: one entry of the request payload
sent to the order-submission endpoint. -/
structure ApiOrderItem where
  item_id : String
  quantity : ℤ
  deriving Repr, DecidableEq

/-- `CreateOrderResponse` from `services/models.py`. -/
structure CreateOrderResponse where
  order_id : String
  total : ℚ
  status : String
  deriving Repr, DecidableEq

/-- Price lookup through `menu_dict = \x7bitem["id"]: item for item in MENU_ITEMS\x7d`:
a dict comprehension keeps the LAST entry per id, hence the reversed search. -/
def menuPrice (menu : List MenuItem) (i : String) : Option ℚ :=
  (menu.reverse.find? (fun m => m.id == i)).map (fun m => m.price)

/-- `BurgerAPIClient.create_order`: totals the request against the menu
(ids absent from the menu contribute nothing), rounds to 2 decimals, and
answers `status = "confirmed"`. The fresh `uuid` is a parameter. -/
def api_create_order (menu : List MenuItem) (order_id : String)
    (items : List ApiOrderItem) : CreateOrderResponse :=
  let total := (items.map (fun it =>
    match menuPrice menu it.item_id with
    | some p => p * (it.quantity : ℚ)
    | none => 0)).sum
  { order_id := order_id, total := roundTo2 total, status := "confirmed" }

/-- Result of one tool-handler invocation: the returned string, the cart
afterwards, and every string pushed through `params.result_callback`. -/
structure HandlerResult where
  response : String
  cart : Cart
  callbacks : List String
  deriving Repr, DecidableEq

/-- Python truthiness test `if not item_id:` on an optional string. -/
def falsy : Option String → Bool
  | none => true
  | some s => s == ""

/-- `", ".join([item.id for item in self.catalog[:5]])`. -/
def availableIds (catalog : List MenuItem) : String :=
  String.intercalate ", " ((catalog.take 5).map (fun m => m.id))

/-- `AddItemToOrderFunction._handle_add_item`. -/
def handle_add_item (catalog : List MenuItem) (cart : Cart)
    (item_id : Option String) (quantity : Option ℤ) : HandlerResult :=
  let q := quantity.getD 1
  if falsy item_id then
    { response := "Error: item_id is required", cart := cart, callbacks := [] }
  else
    let iid := item_id.getD ""
    if q < 1 then
      { response := "Error: quantity must be at least 1", cart := cart, callbacks := [] }
    else
      match catalog.find? (fun m => m.id == iid) with
      | none =>
        { response := "Error: Item " ++ sq ++ iid ++ sq ++
            " not found in menu. Available items include: " ++ availableIds catalog,
          cart := cart, callbacks := [] }
      | some mi =>
        let cart2 := add_item cart
          { item_id := iid, quantity := q, name := mi.name, price := mi.price }
        let resp := "Added " ++ toString q ++ " " ++ mi.name ++
          "(s) to your order. Current order total: $" ++ fmt2 (calculate_total cart2)
        { response := resp, cart := cart2, callbacks := [resp] }

/-- `RemoveItemFromOrderFunction._handle_remove_item`. -/
def handle_remove_item (cart : Cart) (item_id : Option String)
    (quantity : Option ℤ) : HandlerResult :=
  if falsy item_id then
    { response := "Error: item_id is required", cart := cart, callbacks := [] }
  else
    let iid := item_id.getD ""
    match lookupFirst cart iid with
    | none =>
      { response := "Error: Item " ++ sq ++ iid ++ sq ++ " not found in your order",
        cart := cart, callbacks := [] }
    | some item =>
      if (match quantity with | some q => decide (q < 1) | none => false) then
        { response := "Error: quantity to remove must be at least 1",
          cart := cart, callbacks := [] }
      else
        let r := remove_item cart iid quantity
        if !r.1 then
          { response := "Error: Item " ++ sq ++ iid ++ sq ++ " not found in your order",
            cart := r.2, callbacks := [] }
        else if r.2.isEmpty then
          { response := "Removed all " ++ item.name ++
              " from your order. Your order is now empty.",
            cart := r.2, callbacks := [] }
        else
          let resp :=
            match quantity with
            | none => "Removed all " ++ item.name ++
                " from your order. Current order total: $" ++ fmt2 (calculate_total r.2)
            | some q =>
              if item.quantity ≤ q then
                "Removed all " ++ item.name ++
                  " from your order. Current order total: $" ++ fmt2 (calculate_total r.2)
              else
                "Removed " ++ toString q ++ " " ++ item.name ++
                  "(s) from your order. Current order total: $" ++ fmt2 (calculate_total r.2)
          { response := resp, cart := r.2, callbacks := [resp] }

/-- `[\x7b"item_id": item.item_id, "quantity": item.quantity\x7d for item in ...]`. -/
def toApiItems (cart : Cart) : List ApiOrderItem :=
  cart.map (fun x => { item_id := x.item_id, quantity := x.quantity })

/-- Result of one `create_order` invocation, with the trace of requests
sent to the external order-submission endpoint. -/
structure CreateOrderResult where
  response : String
  cart : Cart
  callbacks : List String
  api_requests : List (List ApiOrderItem)
  deriving Repr, DecidableEq

/-- The empty-cart guard string of `_handle_create_order`. -/
def emptyOrderMsg : String :=
  "Error: Your order is empty. Please add some items before placing your order."

/-- The apology string of the `except` branch of `_handle_create_order`. -/
def apologyMsg : String :=
  "Sorry, there was an error processing your order. " ++
  "Your items are still in your cart. Please try again in a moment."

/-- The confirmation string of the success branch of `_handle_create_order`. -/
def confirmMsg (r : CreateOrderResponse) : String :=
  "Order confirmed! Your order ID is " ++ r.order_id ++ ". Total: $" ++
  fmt2 r.total ++ ". Thank you for your order!"

/-- `CreateOrderFunction._handle_create_order`. `outcome` is what the
awaited `api_client.create_order` call produced: `Except.error` models a
raised exception, caught by the `except` clause, which leaves the cart
untouched and answers the apology. -/
def handle_create_order (cart : Cart)
    (outcome : Except String CreateOrderResponse) : CreateOrderResult :=
  if cart.isEmpty then
    { response := emptyOrderMsg, cart := cart, callbacks := [], api_requests := [] }
  else
    let items := toApiItems cart
    match outcome with
    | Except.ok r =>
      { response := confirmMsg r, cart := clear_order,
        callbacks := [confirmMsg r], api_requests := [items] }
    | Except.error _ =>
      { response := apologyMsg, cart := cart,
        callbacks := [apologyMsg], api_requests := [items] }

/-- Number of cart lines carrying a given `item_id`. -/
def countId (cart : Cart) (i : String) : ℕ :=
  (cart.filter (fun x => x.item_id == i)).length

/-- Summed quantity over the cart lines carrying a given `item_id`. -/
def qtyOf (cart : Cart) (i : String) : ℤ :=
  ((cart.filter (fun x => x.item_id == i)).map (fun x => x.quantity)).sum

/-- A rational is an exact cent amount (multiple of 1/100) — true of every
price in the program's menu data. -/
def cents (q : ℚ) : Prop :=
  ∃ k : ℤ, q = (k : ℚ) / 100

/-- The cart invariant of spec §3: every line's quantity is ≥ 1 and no two
lines share an `item_id`. -/
def CartInv (cart : Cart) : Prop :=
  (∀ x ∈ cart, 1 ≤ x.quantity) ∧ (cart.map (fun x => x.item_id)).Nodup

/-! ### Bookkeeping lemmas about the cart operations -/

theorem countId_nil (i : String) : countId [] i = 0 := rfl

theorem countId_cons (x : OrderItem) (rest : Cart) (i : String) :
    countId (x :: rest) i =
      (if x.item_id == i then 1 else 0) + countId rest i := by
  by_cases h : x.item_id = i <;> simp [countId, List.filter_cons, h] <;> omega

theorem qtyOf_cons (x : OrderItem) (rest : Cart) (i : String) :
    qtyOf (x :: rest) i =
      (if x.item_id == i then x.quantity else 0) + qtyOf rest i := by
  by_cases h : x.item_id = i <;> simp [qtyOf, List.filter_cons, h]

theorem hasId_rest (x : OrderItem) (rest : Cart) (i : String)
    (h : hasId (x :: rest) i = true) (hx : x.item_id ≠ i) :
    hasId rest i = true := by
  simp only [hasId, List.any_cons, Bool.or_eq_true, beq_iff_eq] at h
  rcases h with h | h
  · exact absurd h hx
  · exact h

theorem filter_eq_nil_of_not_hasId (cart : Cart) (i : String)
    (h : hasId cart i = false) :
    cart.filter (fun x => x.item_id == i) = [] := by
  simp only [hasId, List.any_eq_false] at h
  simpa [List.filter_eq_nil_iff] using h

theorem countId_eq_zero_of_not_hasId (cart : Cart) (i : String)
    (h : hasId cart i = false) : countId cart i = 0 := by
  simp [countId, filter_eq_nil_of_not_hasId cart i h]

theorem qtyOf_eq_zero_of_not_hasId (cart : Cart) (i : String)
    (h : hasId cart i = false) : qtyOf cart i = 0 := by
  simp [qtyOf, filter_eq_nil_of_not_hasId cart i h]

theorem countId_pos_of_hasId (cart : Cart) (i : String)
    (h : hasId cart i = true) : 1 ≤ countId cart i := by
  induction cart with
  | nil => simp [hasId] at h
  | cons x rest ih =>
    rw [countId_cons]
    by_cases hx : x.item_id = i
    · simp [hx]
    · have := ih (hasId_rest x rest i h hx)
      omega

theorem addQtyFirst_map_id (cart : Cart) (i : String) (q : ℤ) :
    (addQtyFirst cart i q).map (fun x => x.item_id) =
      cart.map (fun x => x.item_id) := by
  induction cart with
  | nil => rfl
  | cons x rest ih =>
    by_cases h : x.item_id = i <;> simp [addQtyFirst, h, ih]

theorem decFirst_map_id (cart : Cart) (i : String) (q : ℤ) :
    (decFirst cart i q).map (fun x => x.item_id) =
      cart.map (fun x => x.item_id) := by
  induction cart with
  | nil => rfl
  | cons x rest ih =>
    by_cases h : x.item_id = i <;> simp [decFirst, h, ih]

theorem countId_addQtyFirst (cart : Cart) (i j : String) (q : ℤ) :
    countId (addQtyFirst cart i q) j = countId cart j := by
  induction cart with
  | nil => rfl
  | cons x rest ih =>
    by_cases h : x.item_id = i
    · simp [addQtyFirst, h, countId_cons]
    · simp [addQtyFirst, h, countId_cons, ih]

theorem countId_decFirst (cart : Cart) (i j : String) (q : ℤ) :
    countId (decFirst cart i q) j = countId cart j := by
  induction cart with
  | nil => rfl
  | cons x rest ih =>
    by_cases h : x.item_id = i
    · simp [decFirst, h, countId_cons]
    · simp [decFirst, h, countId_cons, ih]

theorem hasId_eq_map (cart : Cart) (j : String) :
    hasId cart j = (cart.map (fun x => x.item_id)).any (fun s => s == j) := by
  induction cart with
  | nil => rfl
  | cons x rest ih => simp [hasId, List.any_cons] at ih ⊢; rw [ih]

theorem hasId_addQtyFirst (cart : Cart) (i j : String) (q : ℤ) :
    hasId (addQtyFirst cart i q) j = hasId cart j := by
  rw [hasId_eq_map, hasId_eq_map, addQtyFirst_map_id]

theorem qtyOf_addQtyFirst (cart : Cart) (i : String) (q : ℤ)
    (h : hasId cart i = true) :
    qtyOf (addQtyFirst cart i q) i = qtyOf cart i + q := by
  induction cart with
  | nil => simp [hasId] at h
  | cons x rest ih =>
    by_cases hx : x.item_id = i
    · simp only [addQtyFirst, hx, beq_self_eq_true, if_true]
      rw [qtyOf_cons, qtyOf_cons]
      simp [hx]
      ring
    · have hr := hasId_rest x rest i h hx
      simp only [addQtyFirst, hx]
      rw [if_neg (by simpa using hx), qtyOf_cons, qtyOf_cons, ih hr]
      ring

theorem qtyOf_decFirst (cart : Cart) (i : String) (q : ℤ)
    (h : hasId cart i = true) :
    qtyOf (decFirst cart i q) i = qtyOf cart i - q := by
  induction cart with
  | nil => simp [hasId] at h
  | cons x rest ih =>
    by_cases hx : x.item_id = i
    · simp only [decFirst, hx, beq_self_eq_true, if_true]
      rw [qtyOf_cons, qtyOf_cons]
      simp [hx]
      ring
    · have hr := hasId_rest x rest i h hx
      simp only [decFirst, hx]
      rw [if_neg (by simpa using hx), qtyOf_cons, qtyOf_cons, ih hr]
      ring

theorem countId_removeFirst (cart : Cart) (i : String)
    (h : hasId cart i = true) :
    countId (removeFirst cart i) i + 1 = countId cart i := by
  induction cart with
  | nil => simp [hasId] at h
  | cons x rest ih =>
    by_cases hx : x.item_id = i
    · simp [removeFirst, hx, countId_cons]
      omega
    · have hr := hasId_rest x rest i h hx
      simp only [removeFirst]
      rw [if_neg (by simpa using hx), countId_cons, countId_cons]
      have := ih hr
      omega


theorem hasId_of_lookupFirst (cart : Cart) (i : String) (item : OrderItem)
    (h : lookupFirst cart i = some item) : hasId cart i = true := by
  have hmem := List.mem_of_find?_eq_some h
  have hp := List.find?_some h
  simp only [hasId, List.any_eq_true]
  exact ⟨item, hmem, hp⟩

theorem lookupFirst_eq_none_iff (cart : Cart) (i : String) :
    lookupFirst cart i = none ↔ hasId cart i = false := by
  simp [lookupFirst, hasId, List.find?_eq_none, List.any_eq_false]

theorem lookupFirst_cons_pos (x : OrderItem) (rest : Cart) (i : String)
    (hx : x.item_id = i) : lookupFirst (x :: rest) i = some x := by
  simp [lookupFirst, List.find?_cons, hx]

theorem lookupFirst_cons_neg (x : OrderItem) (rest : Cart) (i : String)
    (hx : x.item_id ≠ i) : lookupFirst (x :: rest) i = lookupFirst rest i := by
  have hbe : (x.item_id == i) = false := by simpa using hx
  simp [lookupFirst, List.find?_cons, hbe]

theorem item_id_of_lookupFirst (cart : Cart) (i : String) (item : OrderItem)
    (h : lookupFirst cart i = some item) : item.item_id = i := by
  have := List.find?_some h
  simpa using this

theorem filter_eq_single_of_unique (cart : Cart) (i : String) (item : OrderItem)
    (hfind : lookupFirst cart i = some item) (huniq : countId cart i ≤ 1) :
    cart.filter (fun x => x.item_id == i) = [item] := by
  induction cart with
  | nil => simp [lookupFirst] at hfind
  | cons x rest ih =>
    by_cases hx : x.item_id = i
    · have hxi : item = x := by
        rw [lookupFirst_cons_pos x rest i hx] at hfind
        exact (Option.some_injective _ hfind).symm
      have hrest : countId rest i = 0 := by
        rw [countId_cons] at huniq
        simp [hx] at huniq
        omega
      have hfil : rest.filter (fun x => x.item_id == i) = [] := by
        have : (rest.filter (fun x => x.item_id == i)).length = 0 := hrest
        exact List.length_eq_zero.mp this
      simp [List.filter_cons, hx, hxi, hfil]
    · have hfind' : lookupFirst rest i = some item := by
        rwa [lookupFirst_cons_neg x rest i hx] at hfind
      have huniq' : countId rest i ≤ 1 := by
        rw [countId_cons] at huniq
        omega
      simp only [List.filter_cons]
      rw [if_neg (by simpa using hx)]
      exact ih hfind' huniq'

theorem qtyOf_of_unique (cart : Cart) (i : String) (item : OrderItem)
    (hfind : lookupFirst cart i = some item) (huniq : countId cart i ≤ 1) :
    qtyOf cart i = item.quantity := by
  simp [qtyOf, filter_eq_single_of_unique cart i item hfind huniq]

theorem lookupFirst_decFirst (cart : Cart) (i : String) (q : ℤ) (item : OrderItem)
    (hfind : lookupFirst cart i = some item) :
    lookupFirst (decFirst cart i q) i =
      some { item with quantity := item.quantity - q } := by
  induction cart with
  | nil => simp [lookupFirst] at hfind
  | cons x rest ih =>
    by_cases hx : x.item_id = i
    · rw [lookupFirst_cons_pos x rest i hx] at hfind
      have hxi : item = x := (Option.some_injective _ hfind).symm
      simp only [decFirst, hx, beq_self_eq_true, if_true]
      rw [lookupFirst_cons_pos _ _ _ (by simpa using hx)]
      rw [hxi]
      simp [hx]
    · have hfind' : lookupFirst rest i = some item := by
        rwa [lookupFirst_cons_neg x rest i hx] at hfind
      simp only [decFirst]
      rw [if_neg (by simpa using hx)]
      rw [lookupFirst_cons_neg _ _ _ hx]
      exact ih hfind'

theorem removeFirst_sublist (cart : Cart) (i : String) :
    (removeFirst cart i).Sublist cart := by
  induction cart with
  | nil => simp [removeFirst]
  | cons x rest ih =>
    by_cases hx : x.item_id = i
    · simp only [removeFirst, hx, beq_self_eq_true, if_true]
      exact (List.sublist_cons_self x rest)
    · simp only [removeFirst]
      rw [if_neg (by simpa using hx)]
      exact ih.cons₂ x

theorem quantity_ge_one_addQtyFirst (cart : Cart) (i : String) (q : ℤ)
    (hq : 0 ≤ q) (h : ∀ x ∈ cart, 1 ≤ x.quantity) :
    ∀ y ∈ addQtyFirst cart i q, 1 ≤ y.quantity := by
  induction cart with
  | nil => simp [addQtyFirst]
  | cons x rest ih =>
    intro y hy
    by_cases hx : x.item_id = i
    · simp only [addQtyFirst, hx, beq_self_eq_true, if_true, List.mem_cons] at hy
      rcases hy with hy | hy
      · have hx1 : 1 ≤ x.quantity := h x (by simp)
        subst hy
        simp only []
        omega
      · exact h y (by simp [hy])
    · simp only [addQtyFirst] at hy
      rw [if_neg (by simpa using hx)] at hy
      rcases List.mem_cons.mp hy with hy | hy
      · subst hy; exact h y (by simp)
      · exact ih (fun z hz => h z (by simp [hz])) y hy

theorem quantity_ge_one_decFirst (cart : Cart) (i : String) (q : ℤ)
    (item : OrderItem) (hfind : lookupFirst cart i = some item)
    (hlt : q < item.quantity) (h : ∀ x ∈ cart, 1 ≤ x.quantity) :
    ∀ y ∈ decFirst cart i q, 1 ≤ y.quantity := by
  induction cart with
  | nil => simp [decFirst]
  | cons x rest ih =>
    intro y hy
    by_cases hx : x.item_id = i
    · rw [lookupFirst_cons_pos x rest i hx] at hfind
      have hxi : item = x := (Option.some_injective _ hfind).symm
      simp only [decFirst, hx, beq_self_eq_true, if_true, List.mem_cons] at hy
      rcases hy with hy | hy
      · subst hy
        simp only []
        rw [← hxi]
        omega
      · exact h y (by simp [hy])
    · have hfind' : lookupFirst rest i = some item := by
        rwa [lookupFirst_cons_neg x rest i hx] at hfind
      simp only [decFirst] at hy
      rw [if_neg (by simpa using hx)] at hy
      rcases List.mem_cons.mp hy with hy | hy
      · subst hy; exact h y (by simp)
      · exact ih hfind' (fun z hz => h z (by simp [hz])) y hy

theorem not_mem_map_id_of_not_hasId (cart : Cart) (i : String)
    (h : hasId cart i = false) : i ∉ cart.map (fun x => x.item_id) := by
  simp only [hasId, List.any_eq_false, beq_iff_eq] at h
  simp only [List.mem_map]
  rintro ⟨x, hx, rfl⟩
  exact h x hx (rfl)

/-! ### Rounding and cent-amount lemmas -/

theorem roundHalfEven_intCast (k : ℤ) : roundHalfEven (k : ℚ) = k := by
  unfold roundHalfEven
  rw [Int.floor_intCast]
  norm_num

theorem roundTo2_cents (q : ℚ) (h : cents q) : roundTo2 q = q := by
  obtain ⟨k, rfl⟩ := h
  unfold roundTo2
  rw [show ((k : ℚ) / 100) * 100 = (k : ℚ) by field_simp]
  rw [roundHalfEven_intCast]

theorem cents_zero : cents 0 :=
  ⟨0, by norm_num⟩

theorem cents_add (a b : ℚ) (ha : cents a) (hb : cents b) : cents (a + b) := by
  obtain ⟨k, rfl⟩ := ha
  obtain ⟨m, rfl⟩ := hb
  exact ⟨k + m, by push_cast; ring⟩

theorem cents_mul_int (p : ℚ) (n : ℤ) (hp : cents p) : cents (p * (n : ℚ)) := by
  obtain ⟨k, rfl⟩ := hp
  exact ⟨k * n, by push_cast; ring⟩

theorem cents_calculate_total (cart : Cart)
    (h : ∀ x ∈ cart, cents x.price) : cents (calculate_total cart) := by
  induction cart with
  | nil => exact cents_zero
  | cons x rest ih =>
    have hx : cents (x.price * (x.quantity : ℚ)) :=
      cents_mul_int x.price x.quantity (h x (by simp))
    have hr : cents (calculate_total rest) :=
      ih (fun z hz => h z (by simp [hz]))
    simpa [calculate_total] using
      cents_add _ _ hx hr

theorem api_total_eq_cart_total (menu : List MenuItem) (cart : Cart)
    (hprice : ∀ x ∈ cart, menuPrice menu x.item_id = some x.price) :
    ((toApiItems cart).map (fun it =>
      match menuPrice menu it.item_id with
      | some p => p * (it.quantity : ℚ)
      | none => 0)).sum = calculate_total cart := by
  induction cart with
  | nil => rfl
  | cons x rest ih =>
    have hx := hprice x (by simp)
    have ih' := ih (fun z hz => hprice z (by simp [hz]))
    simp only [toApiItems, List.map_cons, List.sum_cons, calculate_total] at ih' ⊢
    rw [hx]
    rw [ih']

/-! ### Sample data used by witnesses -/

/-- Sample menu entry, prices shaped like the mock data (exact cents). -/
def mi1 : MenuItem :=
  { id := "burger-001", name := "Classic Burger", description := "A classic burger",
    price := 599/100, category := "burgers" }

/-- Second sample menu entry. -/
def mi2 : MenuItem :=
  { id := "side-001", name := "Fries", description := "Crispy fries",
    price := 249/100, category := "sides" }

/-- Sample menu. -/
def menuW : List MenuItem := [mi1, mi2]

/-- Sample cart line for `burger-001`. -/
def lineB : OrderItem :=
  { item_id := "burger-001", quantity := 2, name := "Classic Burger", price := 599/100 }

/-- Sample cart line for `side-001`. -/
def lineS : OrderItem :=
  { item_id := "side-001", quantity := 3, name := "Fries", price := 249/100 }

/-- Sample non-empty cart. -/
def cartW : Cart := [lineB, lineS]

/-! ### Claim theorems -/

/-- C1: for every non-empty cart, an exception from the order-submission
call is caught inside `_handle_create_order`: the cart's lines (ids,
quantities, names, prices, and their order) are exactly the pre-call
ones, the apology string is returned (no structured error), and it is the
very string pushed through the result callback. -/
theorem create_order_failure_preserves_cart (cart : Cart) (e : String)
    (h : cart ≠ []) :
    handle_create_order cart (Except.error e) =
      { response := apologyMsg, cart := cart, callbacks := [apologyMsg],
        api_requests := [toApiItems cart] } := by
  have hne : cart.isEmpty = false := by
    cases cart with
    | nil => exact absurd rfl h
    | cons x rest => rfl
  simp [handle_create_order, hne]

/-- Witness for C1 at a concrete two-line cart and exception. -/
theorem create_order_failure_preserves_cart_witness :
    cartW ≠ [] ∧
    handle_create_order cartW (Except.error "ConnectError") =
      { response := apologyMsg, cart := cartW, callbacks := [apologyMsg],
        api_requests := [toApiItems cartW] } :=
  ⟨by decide, create_order_failure_preserves_cart cartW "ConnectError" (by decide)⟩

/-- C3: on an empty cart, `_handle_create_order` sends nothing to the
order-submission endpoint (whatever that call would have produced),
leaves the cart empty, answers the "order is empty" string, and pushes
nothing through the callback. -/
theorem create_order_empty_cart_no_call
    (outcome : Except String CreateOrderResponse) :
    handle_create_order [] outcome =
      { response := emptyOrderMsg, cart := [], callbacks := [],
        api_requests := [] } := rfl

/-- C2: for every non-empty cart whose lines carry the menu's (snapshot)
prices in exact cents, a successful submission clears the cart, and the
total in the backend response — also echoed in the confirmation string —
equals `calculate_total` of the cart just before submission. -/
theorem create_order_success_clears_cart (menu : List MenuItem) (cart : Cart)
    (oid : String) (hne : cart ≠ [])
    (hprice : ∀ x ∈ cart, menuPrice menu x.item_id = some x.price)
    (hcents : ∀ x ∈ cart, cents x.price) :
    (api_create_order menu oid (toApiItems cart)).total = calculate_total cart ∧
    handle_create_order cart
        (Except.ok (api_create_order menu oid (toApiItems cart))) =
      { response := confirmMsg (api_create_order menu oid (toApiItems cart)),
        cart := [],
        callbacks := [confirmMsg (api_create_order menu oid (toApiItems cart))],
        api_requests := [toApiItems cart] } ∧
    confirmMsg (api_create_order menu oid (toApiItems cart)) =
      "Order confirmed! Your order ID is " ++ oid ++ ". Total: $" ++
        fmt2 (calculate_total cart) ++ ". Thank you for your order!" := by
  have htot : (api_create_order menu oid (toApiItems cart)).total =
      calculate_total cart := by
    show roundTo2 _ = _
    rw [api_total_eq_cart_total menu cart hprice]
    exact roundTo2_cents _ (cents_calculate_total cart hcents)
  have hne' : cart.isEmpty = false := by
    cases cart with
    | nil => exact absurd rfl hne
    | cons x rest => rfl
  have hoid : (api_create_order menu oid (toApiItems cart)).order_id = oid := rfl
  refine ⟨htot, ?_, ?_⟩
  · simp [handle_create_order, hne', clear_order]
  · simp [confirmMsg, htot, hoid]

/-- Witness for C2 at a concrete cart matching a concrete menu. -/
theorem create_order_success_clears_cart_witness :
    cartW ≠ [] ∧
    (∀ x ∈ cartW, menuPrice menuW x.item_id = some x.price) ∧
    (∀ x ∈ cartW, cents x.price) ∧
    ((api_create_order menuW "order-42" (toApiItems cartW)).total =
        calculate_total cartW ∧
      handle_create_order cartW
          (Except.ok (api_create_order menuW "order-42" (toApiItems cartW))) =
        { response := confirmMsg (api_create_order menuW "order-42" (toApiItems cartW)),
          cart := [],
          callbacks := [confirmMsg (api_create_order menuW "order-42" (toApiItems cartW))],
          api_requests := [toApiItems cartW] } ∧
      confirmMsg (api_create_order menuW "order-42" (toApiItems cartW)) =
        "Order confirmed! Your order ID is " ++ "order-42" ++ ". Total: $" ++
          fmt2 (calculate_total cartW) ++ ". Thank you for your order!") := by
  have hprice : ∀ x ∈ cartW, menuPrice menuW x.item_id = some x.price := by
    intro x hx
    simp only [cartW, List.mem_cons, List.not_mem_nil, or_false] at hx
    rcases hx with rfl | rfl
    · rfl
    · rfl
  have hcents : ∀ x ∈ cartW, cents x.price := by
    intro x hx
    simp only [cartW, List.mem_cons, List.not_mem_nil, or_false] at hx
    rcases hx with rfl | rfl
    · exact ⟨599, by norm_num [lineB]⟩
    · exact ⟨249, by norm_num [lineS]⟩
  exact ⟨by decide, hprice, hcents,
    create_order_success_clears_cart menuW cartW "order-42" (by decide) hprice hcents⟩

/-- C7: `calculate_total` is the exact sum of `price × quantity` over the
lines (it is a pure function of the cart), and on carts whose prices are
exact cent amounts it already agrees with the 2-decimal rounding applied
when totals are rendered. -/
theorem calculate_total_correct (cart : Cart)
    (h : ∀ x ∈ cart, cents x.price) :
    calculate_total cart =
      (cart.map (fun x => x.price * (x.quantity : ℚ))).sum ∧
    roundTo2 (calculate_total cart) = calculate_total cart :=
  ⟨rfl, roundTo2_cents _ (cents_calculate_total cart h)⟩

/-- Witness for C7 at a concrete two-line cart. -/
theorem calculate_total_correct_witness :
    (∀ x ∈ cartW, cents x.price) ∧
    (calculate_total cartW =
        (cartW.map (fun x => x.price * (x.quantity : ℚ))).sum ∧
      roundTo2 (calculate_total cartW) = calculate_total cartW) := by
  have hcents : ∀ x ∈ cartW, cents x.price := by
    intro x hx
    simp only [cartW, List.mem_cons, List.not_mem_nil, or_false] at hx
    rcases hx with rfl | rfl
    · exact ⟨599, by norm_num [lineB]⟩
    · exact ⟨249, by norm_num [lineS]⟩
  exact ⟨hcents, calculate_total_correct cartW hcents⟩

theorem add_item_of_hasId (cart : Cart) (item : OrderItem)
    (h : hasId cart item.item_id = true) :
    add_item cart item = addQtyFirst cart item.item_id item.quantity := by
  simp [add_item, h]

theorem add_item_of_not_hasId (cart : Cart) (item : OrderItem)
    (h : hasId cart item.item_id = false) :
    add_item cart item = cart ++ [item] := by
  simp [add_item, h]

/-- C4: adding the same item id twice merges into one line. Starting from
any cart with at most one line for `i` (the uniqueness invariant), two
adds of `i` with quantities `q1 ≥ 1` and `q2 ≥ 1` leave exactly one line
for `i`, whose quantity is the pre-existing quantity plus `q1 + q2`; the
second add never appends a duplicate line. -/
theorem add_item_merges_lines (cart : Cart) (i n1 n2 : String) (q1 q2 : ℤ)
    (p1 p2 : ℚ) (hq1 : 1 ≤ q1) (hq2 : 1 ≤ q2) (huniq : countId cart i ≤ 1) :
    countId (add_item (add_item cart
      { item_id := i, quantity := q1, name := n1, price := p1 })
      { item_id := i, quantity := q2, name := n2, price := p2 }) i = 1 ∧
    qtyOf (add_item (add_item cart
      { item_id := i, quantity := q1, name := n1, price := p1 })
      { item_id := i, quantity := q2, name := n2, price := p2 }) i =
      qtyOf cart i + (q1 + q2) := by
  have step1 :
      countId (add_item cart { item_id := i, quantity := q1, name := n1, price := p1 }) i = 1 ∧
      qtyOf (add_item cart { item_id := i, quantity := q1, name := n1, price := p1 }) i =
        qtyOf cart i + q1 ∧
      hasId (add_item cart { item_id := i, quantity := q1, name := n1, price := p1 }) i = true := by
    by_cases h : hasId cart i = true
    · rw [add_item_of_hasId cart _ h]
      have h1 := countId_pos_of_hasId cart i h
      refine ⟨?_, qtyOf_addQtyFirst cart i q1 h, by rw [hasId_addQtyFirst]; exact h⟩
      rw [countId_addQtyFirst]
      omega
    · have h' : hasId cart i = false := by
        cases hb : hasId cart i
        · rfl
        · exact absurd hb h
      rw [add_item_of_not_hasId cart _ h']
      have hfil := filter_eq_nil_of_not_hasId cart i h'
      refine ⟨?_, ?_, ?_⟩
      · simp [countId, List.filter_append, hfil]
      · simp [qtyOf, List.filter_append, hfil]
      · simp [hasId, List.any_append]
  obtain ⟨hcount1, hqty1, hhas1⟩ := step1
  rw [add_item_of_hasId _ _ hhas1, countId_addQtyFirst,
    qtyOf_addQtyFirst _ _ _ hhas1, hcount1, hqty1]
  exact ⟨rfl, by ring⟩

/-- Witness for C4: adding `burger-001` twice to a cart already holding it. -/
theorem add_item_merges_lines_witness :
    (1 : ℤ) ≤ 1 ∧ (1 : ℤ) ≤ 4 ∧ countId cartW "burger-001" ≤ 1 ∧
    (countId (add_item (add_item cartW
        { item_id := "burger-001", quantity := 1, name := "Classic Burger", price := 599/100 })
        { item_id := "burger-001", quantity := 4, name := "Classic Burger", price := 599/100 })
        "burger-001" = 1 ∧
      qtyOf (add_item (add_item cartW
        { item_id := "burger-001", quantity := 1, name := "Classic Burger", price := 599/100 })
        { item_id := "burger-001", quantity := 4, name := "Classic Burger", price := 599/100 })
        "burger-001" = qtyOf cartW "burger-001" + (1 + 4)) :=
  ⟨by decide, by decide, by decide,
    add_item_merges_lines cartW "burger-001" "Classic Burger" "Classic Burger"
      1 4 (599/100) (599/100) (by decide) (by decide) (by decide)⟩

/-- C5: `remove_item` on a cart with at most one line per id: an absent id
answers `false` and leaves the cart untouched; a quantity `q` with
`1 ≤ q <` current decrements the sole line for `i` to `current − q` and
retains it; an omitted quantity or `q ≥` current deletes the line
entirely (both answering `true`). -/
theorem remove_item_correct (cart : Cart) (i : String) :
    (lookupFirst cart i = none →
      ∀ qopt : Option ℤ, remove_item cart i qopt = (false, cart)) ∧
    (∀ item : OrderItem, lookupFirst cart i = some item → countId cart i ≤ 1 →
      (∀ q : ℤ, 1 ≤ q → q < item.quantity →
        remove_item cart i (some q) = (true, decFirst cart i q) ∧
        countId (decFirst cart i q) i = 1 ∧
        lookupFirst (decFirst cart i q) i =
          some { item with quantity := item.quantity - q }) ∧
      (∀ qopt : Option ℤ,
        (qopt = none ∨ ∃ q : ℤ, qopt = some q ∧ item.quantity ≤ q) →
        (remove_item cart i qopt).1 = true ∧
        countId (remove_item cart i qopt).2 i = 0)) := by
  constructor
  · intro hnone qopt
    simp [remove_item, hnone]
  · intro item hfind huniq
    have hhas := hasId_of_lookupFirst cart i item hfind
    have hcnt := countId_pos_of_hasId cart i hhas
    have hrem := countId_removeFirst cart i hhas
    constructor
    · intro q hq1 hqlt
      refine ⟨?_, ?_, lookupFirst_decFirst cart i q item hfind⟩
      · simp only [remove_item, hfind]
        rw [if_neg (not_le.mpr hqlt)]
      · rw [countId_decFirst]
        omega
    · intro qopt hdel
      have hres : (remove_item cart i qopt).2 = removeFirst cart i := by
        rcases hdel with rfl | ⟨q, rfl, hge⟩
        · simp [remove_item, hfind]
        · simp only [remove_item, hfind]
          rw [if_pos hge]
      have hfst : (remove_item cart i qopt).1 = true := by
        rcases hdel with rfl | ⟨q, rfl, hge⟩
        · simp [remove_item, hfind]
        · simp only [remove_item, hfind]
          rw [if_pos hge]
      refine ⟨hfst, ?_⟩
      rw [hres]
      omega

/-- Witness for C5 on a concrete cart: partial removal from `burger-001`
(2 → 1) and full deletion of `side-001` with `q = 5 ≥ 3`. -/
theorem remove_item_correct_witness :
    (lookupFirst cartW "drink-001" = none ∧
      remove_item cartW "drink-001" (some 1) = (false, cartW)) ∧
    (lookupFirst cartW "burger-001" = some lineB ∧ countId cartW "burger-001" ≤ 1 ∧
      (remove_item cartW "burger-001" (some 1) = (true, decFirst cartW "burger-001" 1) ∧
        countId (decFirst cartW "burger-001" 1) "burger-001" = 1 ∧
        lookupFirst (decFirst cartW "burger-001" 1) "burger-001" =
          some { lineB with quantity := lineB.quantity - 1 })) ∧
    (lookupFirst cartW "side-001" = some lineS ∧
      (remove_item cartW "side-001" (some 5)).1 = true ∧
      countId (remove_item cartW "side-001" (some 5)).2 "side-001" = 0) := by
  have h1 := (remove_item_correct cartW "drink-001").1 (by rfl) (some 1)
  have h2 := ((remove_item_correct cartW "burger-001").2 lineB (by rfl) (by decide)).1
    1 (by decide) (by decide)
  have h3 := ((remove_item_correct cartW "side-001").2 lineS (by rfl) (by decide)).2
    (some 5) (Or.inr ⟨5, rfl, by decide⟩)
  exact ⟨⟨by rfl, h1⟩, ⟨by rfl, by decide, h2⟩, ⟨by rfl, h3.1, h3.2⟩⟩

/-- C6: the cart invariant — every line's quantity is at least 1 and no
two lines share an `item_id` — holds of the empty cart produced by
`clear_order`, and is preserved by `add_item` (for the `quantity ≥ 1`
items the handlers construct) and by `remove_item` with any argument,
so no zero-quantity line is ever retained. -/
theorem cart_invariant_preserved :
    CartInv clear_order ∧
    (∀ (cart : Cart) (item : OrderItem), CartInv cart → 1 ≤ item.quantity →
      CartInv (add_item cart item)) ∧
    (∀ (cart : Cart) (i : String) (qopt : Option ℤ), CartInv cart →
      CartInv (remove_item cart i qopt).2) := by
  refine ⟨⟨by simp [clear_order], by simp [clear_order]⟩, ?_, ?_⟩
  · intro cart item ⟨hqty, hnd⟩ hq1
    by_cases h : hasId cart item.item_id = true
    · rw [add_item_of_hasId cart item h]
      refine ⟨quantity_ge_one_addQtyFirst cart item.item_id item.quantity
        (by omega) hqty, ?_⟩
      rw [addQtyFirst_map_id]
      exact hnd
    · have h' : hasId cart item.item_id = false := by
        cases hb : hasId cart item.item_id
        · rfl
        · exact absurd hb h
      rw [add_item_of_not_hasId cart item h']
      constructor
      · intro y hy
        rcases List.mem_append.mp hy with hy | hy
        · exact hqty y hy
        · rw [List.mem_singleton.mp hy]; exact hq1
      · rw [List.map_append]
        rw [List.nodup_append]
        refine ⟨hnd, List.nodup_singleton _, ?_⟩
        intro s hs hs'
        rw [List.map_singleton, List.mem_singleton] at hs'
        subst hs'
        exact not_mem_map_id_of_not_hasId cart item.item_id h' hs
  · intro cart i qopt ⟨hqty, hnd⟩
    have hsub : ∀ (c : Cart), c.Sublist cart → CartInv c := by
      intro c hc
      exact ⟨fun y hy => hqty y (hc.subset hy),
        hnd.sublist (hc.map (fun x => x.item_id))⟩
    cases hfind : lookupFirst cart i with
    | none => simpa [remove_item, hfind] using ⟨hqty, hnd⟩
    | some item =>
      cases qopt with
      | none =>
        simp only [remove_item, hfind]
        exact hsub _ (removeFirst_sublist cart i)
      | some q =>
        by_cases hge : item.quantity ≤ q
        · simp only [remove_item, hfind]
          rw [if_pos hge]
          exact hsub _ (removeFirst_sublist cart i)
        · simp only [remove_item, hfind]
          rw [if_neg hge]
          refine ⟨quantity_ge_one_decFirst cart i q item hfind
            (not_le.mp hge) hqty, ?_⟩
          rw [decFirst_map_id]
          exact hnd

/-- Witness for C6 at a concrete invariant-satisfying cart. -/
theorem cart_invariant_preserved_witness :
    CartInv cartW ∧ 1 ≤ lineB.quantity ∧
    CartInv (add_item cartW lineB) ∧
    CartInv (remove_item cartW "side-001" (some 1)).2 := by
  have hinv : CartInv cartW := by
    constructor
    · decide
    · decide
  exact ⟨hinv, by decide,
    cart_invariant_preserved.2.1 cartW lineB hinv (by decide),
    cart_invariant_preserved.2.2 cartW "side-001" (some 1) hinv⟩

/-- C10: `SessionState.remove_item` does not validate its quantity: on a
line at quantity `c ≥ 1`, any `q ≤ 0` is accepted (result `True`) and the
line is set to `c − q` — unchanged for `q = 0`, strictly increased for
`q < 0`. The `quantity ≥ 1` guard lives only in the remove tool handler,
which rejects such a call before touching the cart. -/
theorem remove_item_skips_validation (cart : Cart) (i : String)
    (item : OrderItem) (q : ℤ) (hfind : lookupFirst cart i = some item)
    (hq : q ≤ 0) (hq1 : 1 ≤ item.quantity) (hne : i ≠ "") :
    remove_item cart i (some q) = (true, decFirst cart i q) ∧
    lookupFirst (decFirst cart i q) i =
      some { item with quantity := item.quantity - q } ∧
    (q = 0 → item.quantity - q = item.quantity) ∧
    (q < 0 → item.quantity < item.quantity - q) ∧
    handle_remove_item cart (some i) (some q) =
      { response := "Error: quantity to remove must be at least 1",
        cart := cart, callbacks := [] } := by
  have hlt : q < item.quantity := by omega
  refine ⟨?_, lookupFirst_decFirst cart i q item hfind, by omega, by omega, ?_⟩
  · simp only [remove_item, hfind]
    rw [if_neg (not_le.mpr hlt)]
  · have hbe : (i == "") = false := by simpa using hne
    have hdec : decide (q < 1) = true := decide_eq_true (by omega)
    simp [handle_remove_item, falsy, hbe, hfind, hdec]

/-- Witness for C10: removing `-2` of `burger-001` (at quantity 2) is
accepted by the cart method and raises the quantity to 4, while the tool
handler rejects the same call. -/
theorem remove_item_skips_validation_witness :
    lookupFirst cartW "burger-001" = some lineB ∧ (-2 : ℤ) ≤ 0 ∧
    1 ≤ lineB.quantity ∧ ("burger-001" : String) ≠ "" ∧
    (remove_item cartW "burger-001" (some (-2)) =
        (true, decFirst cartW "burger-001" (-2)) ∧
      lookupFirst (decFirst cartW "burger-001" (-2)) "burger-001" =
        some { lineB with quantity := lineB.quantity - (-2) } ∧
      ((-2 : ℤ) = 0 → lineB.quantity - (-2) = lineB.quantity) ∧
      ((-2 : ℤ) < 0 → lineB.quantity < lineB.quantity - (-2)) ∧
      handle_remove_item cartW (some "burger-001") (some (-2)) =
        { response := "Error: quantity to remove must be at least 1",
          cart := cartW, callbacks := [] }) :=
  ⟨by rfl, by decide, by decide, by decide,
    remove_item_skips_validation cartW "burger-001" lineB (-2)
      (by rfl) (by decide) (by decide) (by decide)⟩

/-- C9: the add tool handler: an omitted quantity behaves exactly as
quantity 1; `q < 1` answers the validation error string and leaves the
cart untouched with no callback; an id missing from the catalog answers
the error string listing the first (up to 5) catalog ids, cart untouched;
otherwise the snapshot line is merged via `add_item` and the confirmation
string carries the running total. -/
theorem add_item_handler_correct (catalog : List MenuItem) (cart : Cart)
    (iid : String) :
    (∀ iopt : Option String,
      handle_add_item catalog cart iopt none =
        handle_add_item catalog cart iopt (some 1)) ∧
    (∀ q : ℤ, iid ≠ "" → q < 1 →
      handle_add_item catalog cart (some iid) (some q) =
        { response := "Error: quantity must be at least 1",
          cart := cart, callbacks := [] }) ∧
    (∀ q : ℤ, iid ≠ "" → 1 ≤ q →
      catalog.find? (fun m => m.id == iid) = none →
      handle_add_item catalog cart (some iid) (some q) =
        { response := "Error: Item " ++ sq ++ iid ++ sq ++
            " not found in menu. Available items include: " ++
            availableIds catalog,
          cart := cart, callbacks := [] }) ∧
    (∀ (q : ℤ) (mi : MenuItem), iid ≠ "" → 1 ≤ q →
      catalog.find? (fun m => m.id == iid) = some mi →
      (handle_add_item catalog cart (some iid) (some q)).cart =
        add_item cart
          { item_id := iid, quantity := q, name := mi.name, price := mi.price } ∧
      (handle_add_item catalog cart (some iid) (some q)).response =
        "Added " ++ toString q ++ " " ++ mi.name ++
          "(s) to your order. Current order total: $" ++
          fmt2 (calculate_total (add_item cart
            { item_id := iid, quantity := q, name := mi.name, price := mi.price })) ∧
      (handle_add_item catalog cart (some iid) (some q)).callbacks =
        [(handle_add_item catalog cart (some iid) (some q)).response]) := by
  refine ⟨fun iopt => rfl, ?_, ?_, ?_⟩
  · intro q hne hlt
    have hbe : (iid == "") = false := by simpa using hne
    simp [handle_add_item, falsy, hbe, hlt]
  · intro q hne hq hfind
    have hbe : (iid == "") = false := by simpa using hne
    simp [handle_add_item, falsy, hbe, not_lt.mpr hq, hfind]
  · intro q mi hne hq hfind
    have hbe : (iid == "") = false := by simpa using hne
    refine ⟨?_, ?_, ?_⟩ <;>
      simp [handle_add_item, falsy, hbe, not_lt.mpr hq, hfind]

/-- Witness for C9 on the sample menu: default quantity, a rejected
quantity 0, a miss on `drink-001`, and a successful add of 2 burgers. -/
theorem add_item_handler_correct_witness :
    ("burger-001" : String) ≠ "" ∧ ("drink-001" : String) ≠ "" ∧
    (0 : ℤ) < 1 ∧ (1 : ℤ) ≤ 2 ∧
    menuW.find? (fun m => m.id == "drink-001") = none ∧
    menuW.find? (fun m => m.id == "burger-001") = some mi1 ∧
    (handle_add_item menuW [] (some "burger-001") none =
      handle_add_item menuW [] (some "burger-001") (some 1)) ∧
    (handle_add_item menuW [] (some "burger-001") (some 0) =
      { response := "Error: quantity must be at least 1",
        cart := [], callbacks := [] }) ∧
    (handle_add_item menuW [] (some "drink-001") (some 2) =
      { response := "Error: Item " ++ sq ++ "drink-001" ++ sq ++
          " not found in menu. Available items include: " ++ availableIds menuW,
        cart := [], callbacks := [] }) ∧
    ((handle_add_item menuW [] (some "burger-001") (some 2)).cart =
      add_item []
        { item_id := "burger-001", quantity := 2, name := mi1.name, price := mi1.price } ∧
    (handle_add_item menuW [] (some "burger-001") (some 2)).response =
      "Added " ++ toString (2 : ℤ) ++ " " ++ mi1.name ++
        "(s) to your order. Current order total: $" ++
        fmt2 (calculate_total (add_item []
          { item_id := "burger-001", quantity := 2, name := mi1.name, price := mi1.price })) ∧
    (handle_add_item menuW [] (some "burger-001") (some 2)).callbacks =
      [(handle_add_item menuW [] (some "burger-001") (some 2)).response]) :=
  ⟨by decide, by decide, by decide, by decide, by rfl, by rfl,
    (add_item_handler_correct menuW [] "burger-001").1 (some "burger-001"),
    (add_item_handler_correct menuW [] "burger-001").2.1 0 (by decide) (by decide),
    (add_item_handler_correct menuW [] "drink-001").2.2.1 2 (by decide) (by decide) (by rfl),
    (add_item_handler_correct menuW [] "burger-001").2.2.2 2 mi1
      (by decide) (by decide) (by rfl)⟩

/-- C8 counterexample: on a validation failure the add handler returns its
error string but pushes nothing through the result callback, so the
delivered side-channel content is not the returned string. -/
theorem callback_not_invoked_on_error :
    (handle_add_item [] [] (some "burger-001") (some 0)).response =
      "Error: quantity must be at least 1" ∧
    (handle_add_item [] [] (some "burger-001") (some 0)).callbacks = [] ∧
    (handle_add_item [] [] (some "burger-001") (some 0)).callbacks ≠
      [(handle_add_item [] [] (some "burger-001") (some 0)).response] := by
  refine ⟨rfl, rfl, ?_⟩
  intro h
  have h' : ([] : List String).length = 1 := by
    conv at h => lhs; rw [show (handle_add_item [] [] (some "burger-001")
      (some 0)).callbacks = [] from rfl]
    simpa using congrArg List.length h
  simp at h'

/-- C8 (amended): whenever a handler does push through the result
callback, the pushed string is identical to the returned one — every
handler's callback trace is either empty (validation-failure, not-found,
empty-cart, and remove-to-empty paths) or exactly its returned string. -/
theorem callback_content_matches_response :
    (∀ (catalog : List MenuItem) (cart : Cart) (iopt : Option String)
        (qopt : Option ℤ),
      (handle_add_item catalog cart iopt qopt).callbacks = [] ∨
      (handle_add_item catalog cart iopt qopt).callbacks =
        [(handle_add_item catalog cart iopt qopt).response]) ∧
    (∀ (cart : Cart) (iopt : Option String) (qopt : Option ℤ),
      (handle_remove_item cart iopt qopt).callbacks = [] ∨
      (handle_remove_item cart iopt qopt).callbacks =
        [(handle_remove_item cart iopt qopt).response]) ∧
    (∀ (cart : Cart) (outcome : Except String CreateOrderResponse),
      (handle_create_order cart outcome).callbacks = [] ∨
      (handle_create_order cart outcome).callbacks =
        [(handle_create_order cart outcome).response]) := by
  refine ⟨?_, ?_, ?_⟩
  · intro catalog cart iopt qopt
    simp only [handle_add_item]
    repeat' split
    all_goals first
    | exact Or.inl rfl
    | exact Or.inr rfl
  · intro cart iopt qopt
    simp only [handle_remove_item]
    repeat' split
    all_goals first
    | exact Or.inl rfl
    | exact Or.inr rfl
  · intro cart outcome
    simp only [handle_create_order]
    repeat' split
    all_goals first
    | exact Or.inl rfl
    | exact Or.inr rfl

end BurgerBot
